import Mathlib

/-
Verification of the uriproj library (src/index.js, embedded from the later
revision of the module: the one whose `load` delegates to `set`).

The library maps CRS URI strings to Projection objects: a process-wide cache
`projCache`, a URI parser `crsUriToEPSG`, an axis corrector `reverseAxes`,
and the public operations `get`, `set` and `load`.

Modelling choices:
  * Coordinates are pairs of rationals.  The library never computes on
    coordinates, it only swaps the two components, so the carrier is
    irrelevant to every property below.
  * The mutable module-level cache is passed explicitly: `set` returns the
    updated cache, `load` returns an outcome record holding the result, the
    cache after the call, and the list of HTTP requests issued.
  * The network is an oracle `net : String → HttpResponse`; `fetch url`
    is one consultation of the oracle, recorded in the outcome's request
    list.
  * A thrown JS error is an `Except.error`; a resolved promise is `.ok`.
    Whether the error is thrown synchronously (as `crsUriToEPSG` does inside
    `load`) or rejects the promise does not matter for the claims, both are
    the failure branch of the operation.
-/

namespace Uriproj

/-- A coordinate pair, [longitude, latitude] or [x, y]. -/
abbrev Coord : Type := ℚ × ℚ

/-- A Projection object: a `forward` transform from geographic [lon,lat]
pairs to projected [x,y] pairs and the `inverse` transform back. -/
structure Projection where
  forward : Coord → Coord
  inverse : Coord → Coord

/-- JS `Array.prototype.reverse` on a two-element coordinate array. -/
def reversePair (pos : Coord) : Coord := (pos.2, pos.1)

/-- The axis corrector `reverseAxes` (source lines 281-286):
`forward: pos => proj.forward(pos).reverse()` and
`inverse: pos => proj.inverse([pos[1], pos[0]])`. -/
def reverseAxes (proj : Projection) : Projection where
  forward := fun pos => reversePair (proj.forward pos)
  inverse := fun pos => proj.inverse (pos.2, pos.1)

def ROOT_PREFIX : String := "http://www.opengis.net/def/crs/"

def OGC_PREFIX : String := ROOT_PREFIX ++ "OGC/"

def EPSG_PREFIX : String := ROOT_PREFIX ++ "EPSG/0/"

/-- The JS errors the module can raise.  The source encodes them all as
`Error` objects with distinguishing messages; the spec names the first four
kinds.  `referenceError` is the error a JS module raises when an undeclared
identifier is read (it carries the identifier's name). -/
inductive JsError where
  | invalidArgument (msg : String)
  | unsupportedURI (uri : String)
  | httpError (status : Nat)
  | parseError (s : String)
  | referenceError (name : String)

/-- `crsUriToEPSG` (source lines 257-266): `uri.indexOf(EPSG_PREFIX) === 0`
tests that the URI begins with the EPSG prefix, and
`uri.substr(EPSG_PREFIX.length)` is the remainder after it; any other URI
throws `Unsupported CRS URI`.  The test and the remainder are taken on the
character sequences of the strings (all involved strings are ASCII, so JS
UTF-16 lengths and character counts agree). -/
def crsUriToEPSG (uri : String) : Except JsError String :=
  if EPSG_PREFIX.data.isPrefixOf uri.data then
    .ok (String.mk (uri.data.drop EPSG_PREFIX.data.length))
  else
    .error (.unsupportedURI uri)

/-- The projection cache, a mapping from URI strings to Projection objects. -/
abbrev Cache : Type := String → Option Projection

def emptyCache : Cache := fun _ => none

/-- The second argument of `set`: either a ready-made Projection object or a
proj4 definition string (the source distinguishes them by `typeof`). -/
inductive ProjArg where
  | projObj (p : Projection)
  | projStr (s : String)

/-- JS falsiness of the `proj` argument: a Projection object is always
truthy; a string is falsy exactly when it is empty. -/
def ProjArg.isFalsy : ProjArg → Bool
  | .projObj _ => false
  | .projStr s => s = ""

structure SetOptions where
  reverseAxes : Bool

/-- `set` (source lines 233-248).  The guard embeds `if (!crsUri || !proj)`.
In the string branch the source reads the identifiers `proj4string` (in
`proj = proj4(proj4string)`) and `proj4obj` (in the guard and in
`reverseAxes(proj4obj)`), neither of which is declared anywhere in the
module; an ES module is strict code, so evaluating the branch raises a
ReferenceError at the first such read, before the proj4 facility is called
and before anything is assigned into the cache.  The object branch stores
the given Projection unchanged and returns it. -/
def set (projCache : Cache) (crsUri : String) (proj : ProjArg) (options : SetOptions) :
    Except JsError (Projection × Cache) :=
  if crsUri = "" ∨ proj.isFalsy = true then
    .error (.invalidArgument "crsUri and proj cannot be empty")
  else
    match proj with
    | .projStr _ => .error (.referenceError "proj4string")
    | .projObj p => .ok (p, fun u => if u = crsUri then some p else projCache u)

/-- Modelled from the spec: `LONLAT` is the Projection the external proj4
facility returns for the definition string
`+proj=longlat +datum=WGS84 +no_defs`.  proj4 is an external collaborator
(not part of this repository); the spec calls this value "the WGS84 identity
projection" and its testable properties state
`forward([lon,lat]) == [lon,lat]` and `inverse([lon,lat]) == [lon,lat]`, so
it is modelled as the identity on coordinate pairs. -/
def LONLAT : Projection where
  forward := fun pos => pos
  inverse := fun pos => pos

/-- The axis-reordering exception list `needsAxesReordering` (source lines
139-141): exactly the EPSG 4326 URI. -/
def needsAxesReordering (uri : String) : Bool :=
  uri = EPSG_PREFIX ++ "4326"

/-- The cache after the module's initialization (source lines 143-146):
`set(OGC_PREFIX + '1.3/CRS84', LONLAT)` then
`set(EPSG_PREFIX + 4979, reverseAxes(LONLAT))`, both through the object
branch of `set`, with no network access. -/
def initialCache : Cache :=
  match set emptyCache (OGC_PREFIX ++ "1.3/CRS84") (.projObj LONLAT) ⟨false⟩ with
  | .error _ => emptyCache
  | .ok (_, c1) =>
    match set c1 (EPSG_PREFIX ++ "4979") (.projObj (reverseAxes LONLAT)) ⟨false⟩ with
    | .error _ => c1
    | .ok (_, c2) => c2

/-- What the network oracle answers for one URL: the fields of a fetch
response that `load` reads. -/
structure HttpResponse where
  ok : Bool
  status : Nat
  text : String

/-- What one call of `load` amounts to: its result, the cache after the
call, and the URLs it requested, in order. -/
structure LoadOutcome where
  result : Except JsError Projection
  cache : Cache
  requests : List String

/-- `load` (source lines 193-207): a cache hit resolves immediately with the
cached Projection; otherwise the EPSG code is parsed, `http://epsg.io/<code>.proj4`
is fetched once, a non-ok response throws `HTTP response code: <status>`,
and an ok response's body is handed to `set` together with the
`reverseAxes` flag. -/
def load (projCache : Cache) (net : String → HttpResponse) (crsUri : String) : LoadOutcome :=
  match projCache crsUri with
  | some proj => ⟨.ok proj, projCache, []⟩
  | none =>
    match crsUriToEPSG crsUri with
    | .error e => ⟨.error e, projCache, []⟩
    | .ok epsg =>
      if (net ("http://epsg.io/" ++ epsg ++ ".proj4")).ok = false then
        ⟨.error (.httpError (net ("http://epsg.io/" ++ epsg ++ ".proj4")).status),
          projCache, ["http://epsg.io/" ++ epsg ++ ".proj4"]⟩
      else
        match set projCache crsUri
            (.projStr (net ("http://epsg.io/" ++ epsg ++ ".proj4")).text)
            ⟨needsAxesReordering crsUri⟩ with
        | .ok pc => ⟨.ok pc.1, pc.2, ["http://epsg.io/" ++ epsg ++ ".proj4"]⟩
        | .error e => ⟨.error e, projCache, ["http://epsg.io/" ++ epsg ++ ".proj4"]⟩

/-- Helper: `set` called with a proj4 string can only throw — both the empty
guard and the string branch end in an error, so no call of `set` on a string
ever assigns into the cache. -/
theorem set_projStr_always_errors (projCache : Cache) (crsUri s : String)
    (options : SetOptions) :
    ∃ e, set projCache crsUri (.projStr s) options = .error e := by
  unfold set
  split
  · exact ⟨_, rfl⟩
  · exact ⟨_, rfl⟩

set_option maxRecDepth 100000 in
/-- Claim C1 (code-bug evidence): `set` called with a non-empty URI and a
non-empty proj4 definition string does not parse the string and does not
store anything — it raises a ReferenceError for the undeclared identifier
`proj4string` (source line 238), although the function's own documentation
and the repository's `#set` test expect the string to be parsed and the
resulting Projection stored.  Evaluated here at the test suite's own input:
the EPSG 27700 URI and the British National Grid proj4 string. -/
theorem set_string_raises_referenceError :
    set emptyCache (EPSG_PREFIX ++ "27700")
      (.projStr ("+proj=tmerc +lat_0=49 +lon_0=-2 +k=0.9996012717 +x_0=400000 +y_0=-100000 +ellps=airy +towgs84=446.448,-125.157,542.06,0.15,0.247,0.842,-20.489 +units=m +no_defs"))
      ⟨false⟩ =
    .error (.referenceError "proj4string") := rfl

/-- Claim C2: the axis corrector swaps the two output components of
`forward` after calling the underlying transform, and swaps the two input
components before handing them to the underlying `inverse`. -/
theorem reverseAxes_forward_swaps_output_inverse_swaps_input
    (P : Projection) (pos : Coord) :
    (reverseAxes P).forward pos = ((P.forward pos).2, (P.forward pos).1) ∧
    (reverseAxes P).inverse pos = P.inverse (pos.2, pos.1) :=
  ⟨rfl, rfl⟩

set_option maxRecDepth 100000 in
/-- Claim C3: the URI parser recognizes exactly the EPSG prefix
`http://www.opengis.net/def/crs/EPSG/0/` — when the URI starts with it, the
remainder after the prefix is returned, and in every other case (in
particular for the CRS84 URI) it fails with `UnsupportedURI` carrying the
offending string. -/
theorem crsUriToEPSG_epsg_prefix_only (uri : String) :
    EPSG_PREFIX = "http://www.opengis.net/def/crs/EPSG/0/" ∧
    (EPSG_PREFIX.data.isPrefixOf uri.data = true →
      crsUriToEPSG uri = .ok (String.mk (uri.data.drop 38))) ∧
    (EPSG_PREFIX.data.isPrefixOf uri.data = false →
      crsUriToEPSG uri = .error (.unsupportedURI uri)) ∧
    crsUriToEPSG (OGC_PREFIX ++ "1.3/CRS84") =
      .error (.unsupportedURI (OGC_PREFIX ++ "1.3/CRS84")) := by
  refine ⟨rfl, fun h => ?_, fun h => ?_, ?_⟩
  · simp only [crsUriToEPSG, h, if_pos]
    rfl
  · simp [crsUriToEPSG, h]
  · rfl

/-- Claim C4: a cache hit makes `load` resolve with the cached Projection,
issue no request and leave the cache unchanged; the second conjunct runs
`load` again on the cache the first call returned, so repeated calls for the
same URI never re-fetch. -/
theorem load_cached_hit (cache : Cache) (net : String → HttpResponse)
    (uri : String) (p : Projection) (h : cache uri = some p) :
    load cache net uri = ⟨.ok p, cache, []⟩ ∧
    load (load cache net uri).cache net uri = ⟨.ok p, cache, []⟩ := by
  have h1 : load cache net uri = ⟨.ok p, cache, []⟩ := by
    unfold load
    rw [h]
  exact ⟨h1, by rw [h1]; exact h1⟩

/-- Claim C4 witness: the pre-seeded CRS84 entry, loaded twice against a
network that answers nothing but failures, resolves both times from the
cache with no request. -/
theorem load_cached_hit_witness :
    load initialCache (fun _ => ⟨false, 404, ""⟩) (OGC_PREFIX ++ "1.3/CRS84") =
      ⟨.ok LONLAT, initialCache, []⟩ ∧
    load (load initialCache (fun _ => ⟨false, 404, ""⟩) (OGC_PREFIX ++ "1.3/CRS84")).cache
        (fun _ => ⟨false, 404, ""⟩) (OGC_PREFIX ++ "1.3/CRS84") =
      ⟨.ok LONLAT, initialCache, []⟩ :=
  load_cached_hit initialCache (fun _ => ⟨false, 404, ""⟩) (OGC_PREFIX ++ "1.3/CRS84")
    LONLAT rfl

/-- Claim C5: each call of `load` is atomic — it either succeeds with the
returned Projection stored under the URI and every other cache entry as it
was, or it fails with the cache exactly as it was before the call. -/
theorem load_atomic (cache : Cache) (net : String → HttpResponse) (uri : String) :
    (∃ p, (load cache net uri).result = .ok p ∧
      (load cache net uri).cache uri = some p ∧
      ∀ u, u ≠ uri → (load cache net uri).cache u = cache u) ∨
    (∃ e, (load cache net uri).result = .error e ∧
      (load cache net uri).cache = cache) := by
  cases hc : cache uri with
  | some p =>
    have hl : load cache net uri = ⟨.ok p, cache, []⟩ := by
      unfold load
      rw [hc]
    exact Or.inl ⟨p, by rw [hl], by rw [hl]; exact hc, fun u _ => by rw [hl]⟩
  | none =>
    right
    cases he : crsUriToEPSG uri with
    | error e =>
      have hl : load cache net uri = ⟨.error e, cache, []⟩ := by
        unfold load
        rw [hc, he]
      exact ⟨e, by rw [hl], by rw [hl]⟩
    | ok epsg =>
      cases hr : (net ("http://epsg.io/" ++ epsg ++ ".proj4")).ok with
      | false =>
        have hl : load cache net uri =
            ⟨.error (.httpError (net ("http://epsg.io/" ++ epsg ++ ".proj4")).status),
              cache, ["http://epsg.io/" ++ epsg ++ ".proj4"]⟩ := by
          unfold load
          rw [hc, he]
          simp [hr]
        exact ⟨_, by rw [hl], by rw [hl]⟩
      | true =>
        obtain ⟨e, hs⟩ := set_projStr_always_errors cache uri
          ((net ("http://epsg.io/" ++ epsg ++ ".proj4")).text) ⟨needsAxesReordering uri⟩
        have hl : load cache net uri =
            ⟨.error e, cache, ["http://epsg.io/" ++ epsg ++ ".proj4"]⟩ := by
          unfold load
          rw [hc, he]
          simp [hr, hs]
        exact ⟨e, by rw [hl], by rw [hl]⟩

/-- Claim C6: the entry pre-seeded under the EPSG 4979 URI at initialization
(no network involved) is the axis-reordered WGS84 projection, and it maps
[lon,lat] forward to [lat,lon] and [lat,lon] back to [lon,lat] for every
coordinate pair. -/
theorem epsg4979_entry_swaps_axes :
    initialCache (EPSG_PREFIX ++ "4979") = some (reverseAxes LONLAT) ∧
    ∀ lon lat : ℚ,
      (reverseAxes LONLAT).forward (lon, lat) = (lat, lon) ∧
      (reverseAxes LONLAT).inverse (lat, lon) = (lon, lat) :=
  ⟨rfl, fun _ _ => ⟨rfl, rfl⟩⟩

/-- Claim C7: for an uncached URI with the EPSG prefix, a non-ok registry
response makes `load` fail with `HttpError` carrying the response status,
with exactly one request issued and the cache untouched. -/
theorem load_http_error (cache : Cache) (net : String → HttpResponse)
    (uri epsg : String) (hc : cache uri = none)
    (he : crsUriToEPSG uri = .ok epsg)
    (hr : (net ("http://epsg.io/" ++ epsg ++ ".proj4")).ok = false) :
    load cache net uri =
      ⟨.error (.httpError (net ("http://epsg.io/" ++ epsg ++ ".proj4")).status),
        cache, ["http://epsg.io/" ++ epsg ++ ".proj4"]⟩ := by
  unfold load
  rw [hc, he]
  simp [hr]

set_option maxRecDepth 100000 in
/-- Claim C7 witness: loading the uncached EPSG 9999 URI against a network
that answers status 404 fails with `HttpError 404` after the single request
`http://epsg.io/9999.proj4`, leaving the empty cache empty. -/
theorem load_http_error_witness :
    load emptyCache (fun _ => ⟨false, 404, ""⟩) (EPSG_PREFIX ++ "9999") =
      ⟨.error (.httpError 404), emptyCache, ["http://epsg.io/9999.proj4"]⟩ :=
  load_http_error emptyCache (fun _ => ⟨false, 404, ""⟩) (EPSG_PREFIX ++ "9999")
    "9999" rfl rfl rfl

/-- Claim C8: `set` with a non-empty URI and a ready-made Projection object
stores that object itself, unwrapped and unchanged, and returns it,
whatever the options say — the axis corrector is applied only in the string
branch. -/
theorem set_projObj_stores_unwrapped (cache : Cache) (uri : String)
    (p : Projection) (options : SetOptions) (h : ¬ uri = "") :
    set cache uri (.projObj p) options =
      .ok (p, fun u => if u = uri then some p else cache u) := by
  unfold set
  rw [if_neg (by simp [ProjArg.isFalsy, h])]

/-- Claim C8 witness: storing `LONLAT` as an object under the EPSG 27700 URI
with `reverseAxes: true` still stores and returns `LONLAT` itself. -/
theorem set_projObj_stores_unwrapped_witness :
    set emptyCache (EPSG_PREFIX ++ "27700") (.projObj LONLAT) ⟨true⟩ =
      .ok (LONLAT, fun u => if u = EPSG_PREFIX ++ "27700" then some LONLAT
        else emptyCache u) :=
  set_projObj_stores_unwrapped emptyCache (EPSG_PREFIX ++ "27700") LONLAT ⟨true⟩
    (by decide)

/-- Claim C9: applying the axis corrector twice gives back the original
projection extensionally — both `forward` and `inverse` agree with the
underlying projection on every coordinate pair. -/
theorem reverseAxes_involutive (P : Projection) (pos : Coord) :
    (reverseAxes (reverseAxes P)).forward pos = P.forward pos ∧
    (reverseAxes (reverseAxes P)).inverse pos = P.inverse pos :=
  ⟨rfl, rfl⟩

/-- A concrete projection probing the round-trip claim pointwise: `inverse`
is the identity and `forward` fixes the single pair (0,1), sending every
other pair to (1,1). -/
def Pcex : Projection where
  forward := fun pos => if pos = ((0 : ℚ), (1 : ℚ)) then ((0 : ℚ), (1 : ℚ))
    else ((1 : ℚ), (1 : ℚ))
  inverse := fun pos => pos

/-- Claim C10 counterexample: at the pair (0,1) the projection `Pcex`
round-trips forward-after-inverse (`Pcex.forward (Pcex.inverse (0,1)) = (0,1)`),
and the inverse-after-forward round trip survives the axis corrector, but
the forward-after-inverse round trip does not:
`(reverseAxes Pcex).forward ((reverseAxes Pcex).inverse (0,1)) = (1,1) ≠ (0,1)`.
The claim's symmetric direction, read pointwise at the same pair, is false. -/
theorem reverseAxes_roundtrip_pointwise_cex :
    Pcex.forward (Pcex.inverse ((0 : ℚ), (1 : ℚ))) = ((0 : ℚ), (1 : ℚ)) ∧
    (reverseAxes Pcex).inverse ((reverseAxes Pcex).forward ((0 : ℚ), (1 : ℚ))) =
      ((0 : ℚ), (1 : ℚ)) ∧
    ¬ (reverseAxes Pcex).forward ((reverseAxes Pcex).inverse ((0 : ℚ), (1 : ℚ))) =
      ((0 : ℚ), (1 : ℚ)) := by
  refine ⟨?_, ?_, ?_⟩ <;> decide

/-- Claim C10 as amended: the inverse-after-forward round trip is preserved
pointwise by the axis corrector; the forward-after-inverse round trip at a
pair `pos` is preserved provided the underlying projection round-trips at
the reversed pair — in particular a projection that round-trips everywhere
still round-trips everywhere after correction. -/
theorem reverseAxes_preserves_roundtrip (P : Projection) (pos : Coord) :
    (P.inverse (P.forward pos) = pos →
      (reverseAxes P).inverse ((reverseAxes P).forward pos) = pos) ∧
    (P.forward (P.inverse (reversePair pos)) = reversePair pos →
      (reverseAxes P).forward ((reverseAxes P).inverse pos) = pos) := by
  constructor
  · intro h
    exact h
  · intro h
    show reversePair (P.forward (P.inverse (reversePair pos))) = pos
    rw [h]
    rfl

/-- Claim C10 amended-claim witness: both preserved round trips, evaluated
for the identity projection `LONLAT` at the pair (2,3). -/
theorem reverseAxes_preserves_roundtrip_witness :
    (reverseAxes LONLAT).inverse ((reverseAxes LONLAT).forward ((2 : ℚ), (3 : ℚ))) =
      ((2 : ℚ), (3 : ℚ)) ∧
    (reverseAxes LONLAT).forward ((reverseAxes LONLAT).inverse ((2 : ℚ), (3 : ℚ))) =
      ((2 : ℚ), (3 : ℚ)) :=
  ⟨(reverseAxes_preserves_roundtrip LONLAT ((2 : ℚ), (3 : ℚ))).1 rfl,
   (reverseAxes_preserves_roundtrip LONLAT ((2 : ℚ), (3 : ℚ))).2 rfl⟩

end Uriproj
